import Mathlib

/-!
Verification of the serverless invoice scanner backend.

Shallow embedding of:
- src/backend/src/shared/utils.ts       (validation, confidence, retry helpers)
- src/backend/src/shared/types.ts       (data model)
- src/backend/src/shared/database.ts    (InvoiceDatabase over a DynamoDB table model)
- src/backend/src/upload/index.ts       (upload request validation)
- src/backend/src/get/index.ts          (getInvoiceById)
- src/backend/src/process/index.ts      (the processing pipeline)

JavaScript strings are modelled as Lean String; the handful of string
operations the code uses (split, toLowerCase, lexicographic comparison,
regex digit matching) are implemented structurally over the underlying
character list so they evaluate inside the kernel.  JavaScript numbers
that carry money or confidence values are modelled as rationals, file
sizes as integers.  Timestamps are ISO-8601 strings and are passed in
explicitly where the source calls getCurrentTimestamp.
-/

namespace InvoiceScanner

/-- Splits a character list at every occurrence of the separator, keeping
empty segments, like the JavaScript String.split used in
process/index.ts line 102 (objectKey.split with a slash). -/
def splitChar (sep : Char) : List Char → List (List Char)
  | [] => [[]]
  | c :: rest =>
    let r := splitChar sep rest
    if c = sep then [] :: r
    else match r with
      | [] => [[c]]
      | g :: gs => (c :: g) :: gs

/-- String.split of JavaScript, on a single separator character. -/
def splitOnChar (s : String) (sep : Char) : List String :=
  (splitChar sep s.data).map (fun g => ⟨g⟩)

/-- JavaScript String.toLowerCase (ASCII range, which is all the
mime-type strings use). -/
def toLowerCase (s : String) : String := ⟨s.data.map Char.toLower⟩

/-- Lexicographic comparison of character lists by code point, the order
DynamoDB uses for string sort keys (ASCII keys compare bytewise). -/
def lexLtChars : List Char → List Char → Bool
  | [], [] => false
  | [], _ :: _ => true
  | _ :: _, [] => false
  | a :: as, b :: bs =>
    if a.toNat < b.toNat then true
    else if b.toNat < a.toNat then false
    else lexLtChars as bs

/-- Strict lexicographic order on strings (DynamoDB sort-key order). -/
def strLt (a b : String) : Bool := lexLtChars a.data b.data

/-- Reflexive lexicographic order on strings. -/
def strLe (a b : String) : Bool := strLt a b || a == b

/-! ## Data model (src/backend/src/shared/types.ts) -/

/-- InvoiceStatus enum (types.ts). -/
inductive InvoiceStatus where
  | uploaded
  | processing
  | completed
  | failed
deriving DecidableEq, Repr

/-- The wire string of each InvoiceStatus value. -/
def InvoiceStatus.str : InvoiceStatus → String
  | .uploaded => "UPLOADED"
  | .processing => "PROCESSING"
  | .completed => "COMPLETED"
  | .failed => "FAILED"

/-- Line item of ExtractedInvoiceData (types.ts). -/
structure LineItem where
  description : String
  quantity : Option ℚ := none
  unitPrice : Option ℚ := none
  totalPrice : Option ℚ := none
  taxRate : Option ℚ := none
deriving DecidableEq, Repr

/-- Confidence summary inside ExtractedInvoiceData: overall score plus
per-field scores (the Record of the source becomes an association list). -/
structure ConfidenceSummary where
  overall : ℚ
  fields : List (String × ℚ) := []
deriving DecidableEq, Repr

/-- ExtractedInvoiceData (types.ts): every field optional. -/
structure ExtractedInvoiceData where
  invoiceNumber : Option String := none
  invoiceDate : Option String := none
  dueDate : Option String := none
  vendorName : Option String := none
  vendorAddress : Option String := none
  vendorPhone : Option String := none
  vendorEmail : Option String := none
  customerName : Option String := none
  customerAddress : Option String := none
  subtotal : Option ℚ := none
  taxAmount : Option ℚ := none
  totalAmount : Option ℚ := none
  currency : Option String := none
  lineItems : Option (List LineItem) := none
  paymentTerms : Option String := none
  notes : Option String := none
  confidence : Option ConfidenceSummary := none
deriving DecidableEq, Repr

/-- InvoiceMetadata (types.ts): the canonical invoice record. -/
structure InvoiceMetadata where
  id : String
  userId : String
  fileName : String
  fileSize : Int
  mimeType : String
  s3Key : String
  status : InvoiceStatus
  createdAt : String
  updatedAt : String
  processingStartedAt : Option String := none
  processingCompletedAt : Option String := none
  extractedData : Option ExtractedInvoiceData := none
  error : Option String := none
deriving DecidableEq, Repr

/-- DynamoInvoiceItem (types.ts): the stored item.  The source spreads
the InvoiceMetadata fields inline next to the key attributes; here they
are kept in the inv component, which is exactly what
mapDynamoItemToInvoice recovers by stripping PK, SK, GSI1PK, GSI1SK, ttl. -/
structure DynamoInvoiceItem where
  PK : String
  SK : String
  GSI1PK : Option String := none
  GSI1SK : Option String := none
  ttl : Option Nat := none
  inv : InvoiceMetadata
deriving DecidableEq, Repr

/-- Error taxonomy relevant to the embedded handlers (types.ts defines
ValidationError and NotFoundError as subclasses of InvoiceScannerError). -/
inductive ApiError where
  | validationError (message : String)
  | notFoundError (message : String)
deriving DecidableEq, Repr

/-- UploadUrlRequest (types.ts). -/
structure UploadUrlRequest where
  fileName : String
  fileSize : Int
  mimeType : String
deriving DecidableEq, Repr

/-- GetInvoicesQuery (types.ts). -/
structure GetInvoicesQuery where
  limit : Option Nat := none
  nextToken : Option String := none
  status : Option InvoiceStatus := none
deriving DecidableEq, Repr

/-- PaginatedResponse (types.ts). -/
structure PaginatedResponse where
  items : List InvoiceMetadata
  nextToken : Option String := none
  count : Nat
deriving DecidableEq, Repr

/-! ## Shared utilities (src/backend/src/shared/utils.ts) -/

/-- isValidFileType (utils.ts lines 113 to 123): lower-case the mime type
and test membership in the fixed allow-list. -/
def allowedTypes : List String :=
  ["application/pdf", "image/jpeg", "image/jpg", "image/png", "image/tiff", "image/bmp"]

/-- isValidFileType (utils.ts): allowedTypes.includes(mimeType.toLowerCase()). -/
def isValidFileType (mimeType : String) : Bool :=
  allowedTypes.contains (toLowerCase mimeType)

/-- isValidFileSize (utils.ts lines 128 to 131): size strictly positive and
at most 10 * 1024 * 1024 bytes. -/
def isValidFileSize (size : Int) : Bool :=
  decide (0 < size) && decide (size ≤ 10 * 1024 * 1024)

/-- calculateConfidence (utils.ts lines 177 to 180): 0 on an empty list,
otherwise the sum of the scores divided by their count. -/
def calculateConfidence (scores : List ℚ) : ℚ :=
  if scores.length = 0 then 0 else scores.sum / (scores.length : ℚ)

/-- Collapses adjacent spaces to a single space; together with the
whitespace-to-space map below this models the regex replacement of every
whitespace run by one space in sanitizeText. -/
def squeezeSpaces : List Char → List Char
  | [] => []
  | [c] => [c]
  | a :: b :: rest =>
    if a = ' ' && b = ' ' then squeezeSpaces (b :: rest)
    else a :: squeezeSpaces (b :: rest)

/-- Drops leading and trailing spaces (after sanitizeText removes
non-printable characters the only whitespace left is the space itself,
so this is the JavaScript trim of the source). -/
def trimSpaces (cs : List Char) : List Char :=
  ((cs.dropWhile (fun c => c == ' ')).reverse.dropWhile (fun c => c == ' ')).reverse

/-- sanitizeText (utils.ts lines 185 to 190): collapse whitespace runs to
one space, remove characters outside the printable ASCII range 0x20 to
0x7E, then trim. -/
def sanitizeText (text : String) : String :=
  let collapsed := squeezeSpaces (text.data.map (fun c => if c.isWhitespace then ' ' else c))
  let printable := collapsed.filter (fun c => 0x20 ≤ c.toNat && c.toNat ≤ 0x7E)
  ⟨trimSpaces printable⟩

/-- Attempt loop of retryWithBackoff (utils.ts lines 235 to 258): the
callee is indexed by the attempt number, the first success is returned,
and when the final attempt fails its error is surfaced.  The exponential
delay between attempts has no observable effect in this model. -/
def retryAux (fn : Nat → Except String α) (base : Nat) : Nat → Except String α
  | 0 => fn base
  | n + 1 =>
    match fn base with
    | Except.ok a => Except.ok a
    | Except.error _ => retryAux fn (base + 1) n

/-- retryWithBackoff (utils.ts): attempts 0 through maxRetries inclusive. -/
def retryWithBackoff (fn : Nat → Except String α) (maxRetries : Nat) : Except String α :=
  retryAux fn 0 maxRetries

/-! ## Upload request validation (src/backend/src/upload/index.ts) -/

/-- uploadRequestSchema (upload/index.ts lines 30 to 34): fileName a string
of 1 to 255 characters, fileSize an integer from 1 to 10485760, mimeType a
required (hence non-empty) string.  fileSize is an Int in the model, so
the integer() constraint of the schema is carried by the type. -/
def uploadRequestSchemaOk (r : UploadUrlRequest) : Bool :=
  decide (1 ≤ r.fileName.length) && decide (r.fileName.length ≤ 255) &&
  decide (1 ≤ r.fileSize) && decide (r.fileSize ≤ 10 * 1024 * 1024) &&
  !(r.mimeType == "")

/-- Validation phase of the upload handler (upload/index.ts lines 50 to 71):
schema validation, then isValidFileType, then isValidFileSize, each failure
raised as a ValidationError.  The schema error message of the source
carries the Joi detail text; the model keeps the stable witness part. -/
def validateUploadRequest (r : UploadUrlRequest) : Except ApiError Unit :=
  if !(uploadRequestSchemaOk r) then
    Except.error (ApiError.validationError "Invalid request")
  else if !(isValidFileType r.mimeType) then
    Except.error (ApiError.validationError "Invalid file type. Supported types: PDF, JPEG, PNG, TIFF, BMP")
  else if !(isValidFileSize r.fileSize) then
    Except.error (ApiError.validationError "Invalid file size. Maximum size is 10MB")
  else
    Except.ok ()

/-- Tests whether a validation outcome is a ValidationError. -/
def isApiValidationError : Except ApiError Unit → Bool
  | Except.error (ApiError.validationError _) => true
  | _ => false

/-! ## Invoice record store (src/backend/src/shared/database.ts)

The DynamoDB table is a list of items; uniqueness of the (PK, SK) pair is
the invariant the conditional expressions of the source maintain. -/

/-- mapDynamoItemToInvoice (database.ts lines 210 to 213): strip the key
attributes and ttl, keep the invoice fields. -/
def mapDynamoItemToInvoice (item : DynamoInvoiceItem) : InvoiceMetadata := item.inv

/-- createInvoice (database.ts lines 21 to 42): build the item with
PK USER#userId, SK INVOICE#id, GSI1PK STATUS#status, GSI1SK createdAt and
insert it under the condition attribute_not_exists(PK); a conditional
failure surfaces as the generic creation error of the catch block. -/
def createInvoice (table : List DynamoInvoiceItem) (invoice : InvoiceMetadata) :
    Except String (List DynamoInvoiceItem) :=
  let item : DynamoInvoiceItem :=
    { PK := "USER#" ++ invoice.userId
      SK := "INVOICE#" ++ invoice.id
      GSI1PK := some ("STATUS#" ++ invoice.status.str)
      GSI1SK := some invoice.createdAt
      inv := invoice }
  if table.any (fun it => it.PK == item.PK && it.SK == item.SK) then
    Except.error "Failed to create invoice record"
  else
    Except.ok (table ++ [item])

/-- getInvoice (database.ts lines 47 to 66): point read on the composite
key (USER#userId, INVOICE#invoiceId); a missing item becomes null. -/
def getInvoice (table : List DynamoInvoiceItem) (invoiceId userId : String) :
    Option InvoiceMetadata :=
  (table.find? (fun it =>
    it.PK == ("USER#" ++ userId) && it.SK == ("INVOICE#" ++ invoiceId))).map
    mapDynamoItemToInvoice

/-- The Partial InvoiceMetadata accepted by updateInvoice.  The callers in
the repository send only these fields; the key attributes, id, userId and
createdAt are never part of a patch, and a patch carrying updatedAt would
duplicate the document path the update expression always appends, which
DynamoDB rejects, so successful updates never contain it. -/
structure UpdatePatch where
  fileName : Option String := none
  status : Option InvoiceStatus := none
  processingStartedAt : Option String := none
  processingCompletedAt : Option String := none
  extractedData : Option ExtractedInvoiceData := none
  error : Option String := none
deriving DecidableEq, Repr

/-- Effect of the dynamically built update expression of updateInvoice
(database.ts lines 76 to 99) on the invoice fields: every defined patch
field overwrites the stored one, and updatedAt is always set to the
current timestamp. -/
def applyPatch (inv : InvoiceMetadata) (p : UpdatePatch) (now : String) : InvoiceMetadata :=
  { inv with
    fileName := p.fileName.getD inv.fileName
    status := p.status.getD inv.status
    processingStartedAt := p.processingStartedAt.orElse (fun _ => inv.processingStartedAt)
    processingCompletedAt := p.processingCompletedAt.orElse (fun _ => inv.processingCompletedAt)
    extractedData := p.extractedData.orElse (fun _ => inv.extractedData)
    error := p.error.orElse (fun _ => inv.error)
    updatedAt := now }

/-- Effect of the update expression on a whole stored item: the invoice
fields via applyPatch, and GSI1PK rewritten to STATUS#newStatus exactly
when the patch contains status (database.ts lines 94 to 99). -/
def updateItem (it : DynamoInvoiceItem) (p : UpdatePatch) (now : String) : DynamoInvoiceItem :=
  { it with
    inv := applyPatch it.inv p now
    GSI1PK := match p.status with
      | some st => some ("STATUS#" ++ st.str)
      | none => it.GSI1PK }

/-- updateInvoice (database.ts lines 71 to 119): UpdateCommand on the
composite key with ConditionExpression attribute_exists(PK).  The only
condition is existence of the item; there is no check on the current
status.  A conditional failure surfaces as the generic error of the
catch block. -/
def updateInvoice (table : List DynamoInvoiceItem) (invoiceId userId : String)
    (p : UpdatePatch) (now : String) : Except String (List DynamoInvoiceItem) :=
  let pk := "USER#" ++ userId
  let sk := "INVOICE#" ++ invoiceId
  if table.any (fun it => it.PK == pk && it.SK == sk) then
    Except.ok (table.map (fun it =>
      if it.PK == pk && it.SK == sk then updateItem it p now else it))
  else
    Except.error "Failed to update invoice"

/-- Insertion into a list kept in descending sort-key order. -/
def insertDescBySK (it : DynamoInvoiceItem) : List DynamoInvoiceItem → List DynamoInvoiceItem
  | [] => [it]
  | x :: xs => if strLe x.SK it.SK then it :: x :: xs else x :: insertDescBySK it xs

/-- The partition in the order a Query with ScanIndexForward false scans
it: items sorted by SK descending (DynamoDB stores string keys in
lexicographic byte order). -/
def sortBySKDesc : List DynamoInvoiceItem → List DynamoInvoiceItem
  | [] => []
  | x :: xs => insertDescBySK x (sortBySKDesc xs)

/-- getUserInvoices (database.ts lines 124 to 177): Query on
PK = USER#userId with ScanIndexForward false and Limit, an optional
FilterExpression on status (DynamoDB applies Limit to the items examined
before the filter), and an ExclusiveStartKey resuming strictly past the
cursor in scan direction.  The nextToken of the response is the
base64-encoded LastEvaluatedKey; the model keeps its essential content,
the SK of the last examined item, and reports it when the scan stopped at
the limit with items remaining.  The default limit is 20. -/
def getUserInvoices (table : List DynamoInvoiceItem) (userId : String)
    (q : GetInvoicesQuery) : PaginatedResponse :=
  let limit := q.limit.getD 20
  let pk := "USER#" ++ userId
  let sorted := sortBySKDesc (table.filter (fun it => it.PK == pk))
  let rem := match q.nextToken with
    | none => sorted
    | some k => sorted.filter (fun it => strLt it.SK k)
  let examined := rem.take limit
  let lastKey := if limit < rem.length then examined.getLast?.map (fun it => it.SK) else none
  let items := match q.status with
    | none => examined
    | some st => examined.filter (fun it => it.inv.status == st)
  { items := items.map mapDynamoItemToInvoice
    nextToken := lastKey
    count := items.length }

/-- getInvoiceById of the get handler (src/backend/src/get/index.ts lines
65 to 86): a null from the store becomes a NotFoundError. -/
def getInvoiceById (table : List DynamoInvoiceItem) (invoiceId userId : String) :
    Except ApiError InvoiceMetadata :=
  match getInvoice table invoiceId userId with
  | none => Except.error (ApiError.notFoundError "Invoice not found")
  | some inv => Except.ok inv

/-! ## Processing pipeline (src/backend/src/process/index.ts) -/

/-- TextractBlock (types.ts): block type, optional text, optional
per-block confidence. -/
structure TextractBlock where
  blockType : String
  text : Option String := none
  confidence : Option ℚ := none
deriving DecidableEq, Repr

/-- TextractResponse (types.ts). -/
structure TextractResponse where
  blocks : List TextractBlock
deriving DecidableEq, Repr

/-- Key decoding of processInvoiceFile (process/index.ts line 44):
replace every plus by a space, then decodeURIComponent.  Percent-escape
decoding is not modelled; on keys without a percent sign
decodeURIComponent is the identity, and every key in this development is
percent-free. -/
def decodeS3Key (k : String) : String :=
  ⟨k.data.map (fun c => if c = '+' then ' ' else c)⟩

/-- getInvoiceIdFromS3Key (process/index.ts lines 95 to 114): split the
key on slashes; when it has at least three segments and starts with the
uploads segment, match the leading digits of the file name against the
timestamp pattern and return the placeholder identifier
invoice-timestamp.  No store lookup happens; the comment of the source
admits the identifier is a fabricated placeholder. -/
def getInvoiceIdFromS3Key (objectKey : String) : Option String :=
  let pathParts := splitOnChar objectKey '/'
  if decide (3 ≤ pathParts.length) && (pathParts.head? == some "uploads") then
    let filename := pathParts.getLastD ""
    let ds := filename.data.takeWhile Char.isDigit
    match filename.data.dropWhile Char.isDigit with
    | '-' :: _ => if ds.isEmpty then none else some ("invoice-" ++ ⟨ds⟩)
    | _ => none
  else none

/-- extractTextWithTextract (process/index.ts lines 119 to 158): the
Textract call under retryWithBackoff with maxRetries 3, failures wrapped
into a ProcessingError message.  The external capability is an oracle
indexed by the attempt number. -/
def extractTextWithTextract (textract : Nat → Except String TextractResponse) :
    Except String TextractResponse :=
  match retryWithBackoff textract 3 with
  | Except.ok r => Except.ok r
  | Except.error e => Except.error ("Textract analysis failed: " ++ e)

/-- Truthiness of an optional string, as JavaScript tests block.Text. -/
def truthyStr : Option String → Bool
  | none => false
  | some s => !(s == "")

/-- extractTextFromBlocks (process/index.ts lines 198 to 203): keep LINE
blocks with truthy text, sanitize each, join with newlines. -/
def extractTextFromBlocks (blocks : List TextractBlock) : String :=
  String.intercalate "\n"
    ((blocks.filter (fun b => b.blockType == "LINE" && truthyStr b.text)).map
      (fun b => sanitizeText (b.text.getD "")))

/-- createInvoiceExtractionPrompt (process/index.ts lines 208 to 229). -/
def createInvoiceExtractionPrompt (textContent : String) : String :=
  "\nExtract structured data from the following invoice text. Return a JSON object with the following fields:\n- invoiceNumber: string\n- invoiceDate: string (ISO format)\n- dueDate: string (ISO format)\n- vendorName: string\n- vendorAddress: string\n- customerName: string\n- customerAddress: string\n- subtotal: number\n- taxAmount: number\n- totalAmount: number\n- currency: string\n- lineItems: array of \x7bdescription, quantity, unitPrice, totalPrice\x7d\n\nInvoice text:\n"
  ++ textContent
  ++ "\n\nReturn only valid JSON without any additional text or formatting.\n"

/-- callBedrockForDataExtraction (process/index.ts lines 234 to 269): the
Bedrock call under retryWithBackoff with maxRetries 2; the catch block
swallows every failure, response parsing included, and returns the empty
data structure.  The oracle stands for the model invocation together
with the JSON parsing of its response. -/
def callBedrockForDataExtraction (bedrock : Nat → Except String ExtractedInvoiceData) :
    ExtractedInvoiceData :=
  match retryWithBackoff bedrock 2 with
  | Except.ok d => d
  | Except.error _ => {}

/-- calculateTextractConfidence (process/index.ts lines 274 to 278): the
confidence values of the blocks that carry one, in block order. -/
def calculateTextractConfidence (blocks : List TextractBlock) : List ℚ :=
  (blocks.filter (fun b => b.confidence.isSome)).filterMap (fun b => b.confidence)

/-- processTextWithAI (process/index.ts lines 163 to 193): build the
corpus and prompt, call Bedrock, and merge the structured data with the
confidence summary computed from the Textract blocks (field-level scores
are left empty by the source). -/
def processTextWithAI (bedrock : String → Nat → Except String ExtractedInvoiceData)
    (textractResult : TextractResponse) : ExtractedInvoiceData :=
  let textContent := extractTextFromBlocks textractResult.blocks
  let prompt := createInvoiceExtractionPrompt textContent
  let structuredData := callBedrockForDataExtraction (bedrock prompt)
  let confidenceScores := calculateTextractConfidence textractResult.blocks
  { structuredData with
    confidence := some { overall := calculateConfidence confidenceScores, fields := [] } }

/-- The updates object built by updateInvoiceStatus (process/index.ts
lines 283 to 313): status and updatedAt always, processingStartedAt on
PROCESSING, processingCompletedAt on COMPLETED, error on FAILED when the
message is truthy. -/
structure StatusUpdates where
  status : InvoiceStatus
  updatedAt : String
  processingStartedAt : Option String := none
  processingCompletedAt : Option String := none
  error : Option String := none
deriving DecidableEq, Repr

/-- Builds the updates object of updateInvoiceStatus. -/
def buildStatusUpdates (status : InvoiceStatus) (err : Option String) (now : String) :
    StatusUpdates :=
  { status := status
    updatedAt := now
    processingStartedAt := if status = InvoiceStatus.processing then some now else none
    processingCompletedAt := if status = InvoiceStatus.completed then some now else none
    error := if status = InvoiceStatus.failed && truthyStr err then err else none }

/-- The updates object built by updateInvoiceWithData (process/index.ts
lines 318 to 338): status COMPLETED, the extracted data, and
processingCompletedAt. -/
structure DataUpdates where
  status : InvoiceStatus
  extractedData : ExtractedInvoiceData
  processingCompletedAt : String
deriving DecidableEq, Repr

/-- Builds the updates object of updateInvoiceWithData. -/
def buildDataUpdates (d : ExtractedInvoiceData) (now : String) : DataUpdates :=
  { status := InvoiceStatus.completed, extractedData := d, processingCompletedAt := now }

/-- Observable steps of one processInvoiceFile invocation.  The two
update events record the arguments the pipeline hands to its status
writers; in the source both writers only log, because the
invoiceDb.updateInvoice call inside each of them is commented out
(process/index.ts lines 304 to 305 and 329 to 330), so no store write
happens at all. -/
inductive PipelineEvent where
  | statusUpdate (invoiceId : String) (u : StatusUpdates)
  | dataUpdate (invoiceId : String) (u : DataUpdates)
  | dropped (objectKey : String)
  | textractInvoked
  | bedrockInvoked
deriving DecidableEq, Repr

/-- processInvoiceFile (process/index.ts lines 42 to 90): decode the key,
resolve the placeholder invoice id (dropping the notification when it
does not match), mark PROCESSING, run Textract, structure the text, and
record the COMPLETED update; a Textract failure is the only reachable
exception and lands in the catch block, which resolves the id again and
records the FAILED update.  The function reads no record state: it takes
no table argument because the source consults none. -/
def processInvoiceFile (textract : Nat → Except String TextractResponse)
    (bedrock : String → Nat → Except String ExtractedInvoiceData)
    (now : String) (rawKey : String) : List PipelineEvent :=
  let objectKey := decodeS3Key rawKey
  match getInvoiceIdFromS3Key objectKey with
  | none => [PipelineEvent.dropped objectKey]
  | some invoiceId =>
    match extractTextWithTextract textract with
    | Except.error e =>
      [PipelineEvent.statusUpdate invoiceId
         (buildStatusUpdates InvoiceStatus.processing none now),
       PipelineEvent.textractInvoked,
       PipelineEvent.statusUpdate invoiceId
         (buildStatusUpdates InvoiceStatus.failed (some e) now)]
    | Except.ok tr =>
      let extractedData := processTextWithAI bedrock tr
      [PipelineEvent.statusUpdate invoiceId
         (buildStatusUpdates InvoiceStatus.processing none now),
       PipelineEvent.textractInvoked,
       PipelineEvent.bedrockInvoked,
       PipelineEvent.dataUpdate invoiceId (buildDataUpdates extractedData now)]

/-- Tests whether a pipeline event is the FAILED status write. -/
def isFailedStatusEvent : PipelineEvent → Bool
  | PipelineEvent.statusUpdate _ u => u.status == InvoiceStatus.failed
  | _ => false

/-! ## Store well-formedness

createInvoice only ever inserts items whose keys are derived from the
invoice fields, and the upload handler generates the id with uuidv4, so a
reachable table satisfies both predicates below. -/

/-- Every stored item has PK USER#userId and SK INVOICE#id of its own
invoice fields, as createInvoice builds them. -/
def keysConsistent (table : List DynamoInvoiceItem) : Prop :=
  ∀ it ∈ table, it.PK = "USER#" ++ it.inv.userId ∧ it.SK = "INVOICE#" ++ it.inv.id

/-- Invoice ids are globally unique across the table (the id invariant of
the data model; ids are uuidv4 values minted by the upload handler). -/
def idsGloballyUnique (table : List DynamoInvoiceItem) : Prop :=
  ∀ it1 ∈ table, ∀ it2 ∈ table, it1.inv.id = it2.inv.id → it1 = it2

/-! ## Concrete fixtures used by the claim theorems -/

/-- A stored record that is already in PROCESSING. -/
def itC1 : DynamoInvoiceItem :=
  { PK := "USER#u1", SK := "INVOICE#inv1", GSI1PK := some "STATUS#PROCESSING",
    GSI1SK := some "2024-01-01T00:00:00.000Z",
    inv := { id := "inv1", userId := "u1", fileName := "a.pdf", fileSize := 100,
             mimeType := "application/pdf", s3Key := "uploads/u1/1-a.pdf",
             status := InvoiceStatus.processing,
             createdAt := "2024-01-01T00:00:00.000Z", updatedAt := "t1",
             processingStartedAt := some "t1" } }

/-- A Textract response whose blocks carry no confidence values. -/
def trC2 : TextractResponse :=
  { blocks := [{ blockType := "LINE", text := some "Total 5" }] }

/-- A Textract oracle that succeeds immediately with trC2. -/
def textractOkC2 : Nat → Except String TextractResponse :=
  fun _ => Except.ok trC2

/-- A Bedrock oracle that fails on every attempt. -/
def bedrockDownC2 : String → Nat → Except String ExtractedInvoiceData :=
  fun _ _ => Except.error "Bedrock unavailable"

/-- A one-line Textract response. -/
def trC3 : TextractResponse :=
  { blocks := [{ blockType := "LINE", text := some "x" }] }

/-- A Textract oracle that succeeds immediately with trC3. -/
def textractOkC3 : Nat → Except String TextractResponse :=
  fun _ => Except.ok trC3

/-- A Bedrock oracle that returns a vendor name. -/
def bedrockOkC3 : String → Nat → Except String ExtractedInvoiceData :=
  fun _ _ => Except.ok { vendorName := some "V" }

/-- Extracted data persisted by an earlier, completed processing pass. -/
def dOldC3 : ExtractedInvoiceData :=
  { vendorName := some "Old", confidence := some { overall := 0, fields := [] } }

/-- Extracted data a re-delivered notification computes afresh. -/
def dNewC3 : ExtractedInvoiceData :=
  { vendorName := some "V", confidence := some { overall := 0, fields := [] } }

/-- A stored record already COMPLETED, with extracted data in place. -/
def itC3 : DynamoInvoiceItem :=
  { PK := "USER#u2", SK := "INVOICE#inv456", GSI1PK := some "STATUS#COMPLETED",
    GSI1SK := some "2024-01-01T00:00:00.000Z",
    inv := { id := "inv456", userId := "u2", fileName := "b.pdf", fileSize := 100,
             mimeType := "application/pdf", s3Key := "uploads/u2/456-b.pdf",
             status := InvoiceStatus.completed,
             createdAt := "2024-01-01T00:00:00.000Z", updatedAt := "t1",
             processingStartedAt := some "t1", processingCompletedAt := some "t1",
             extractedData := some dOldC3 } }

/-- The patch the COMPLETED write of a re-processing pass would send. -/
def patchC3 : UpdatePatch :=
  { status := some InvoiceStatus.completed, extractedData := some dNewC3,
    processingCompletedAt := some "t3" }

/-- The older of two records of one owner; its id sorts higher. -/
def invC5old : InvoiceMetadata :=
  { id := "b0", userId := "u5", fileName := "a.pdf", fileSize := 100,
    mimeType := "application/pdf", s3Key := "uploads/u5/1-a.pdf",
    status := InvoiceStatus.uploaded,
    createdAt := "2024-01-01T00:00:00.000Z", updatedAt := "2024-01-01T00:00:00.000Z" }

/-- Stored item of invC5old. -/
def itC5old : DynamoInvoiceItem :=
  { PK := "USER#u5", SK := "INVOICE#b0", GSI1PK := some "STATUS#UPLOADED",
    GSI1SK := some "2024-01-01T00:00:00.000Z", inv := invC5old }

/-- The newer record of the same owner; its id sorts lower (ids are
uuidv4 values, unrelated to creation order). -/
def invC5new : InvoiceMetadata :=
  { id := "a0", userId := "u5", fileName := "b.pdf", fileSize := 100,
    mimeType := "application/pdf", s3Key := "uploads/u5/2-b.pdf",
    status := InvoiceStatus.uploaded,
    createdAt := "2024-01-02T00:00:00.000Z", updatedAt := "2024-01-02T00:00:00.000Z" }

/-- Stored item of invC5new. -/
def itC5new : DynamoInvoiceItem :=
  { PK := "USER#u5", SK := "INVOICE#a0", GSI1PK := some "STATUS#UPLOADED",
    GSI1SK := some "2024-01-02T00:00:00.000Z", inv := invC5new }

/-- The two Textract lines of Scenario A, with confidences 0.9 and 0.8. -/
def blocksA : List TextractBlock :=
  [{ blockType := "LINE", text := some "Invoice from Acme", confidence := some (9/10) },
   { blockType := "LINE", text := some "Total 100.00 USD", confidence := some (4/5) }]

/-- Scenario A Textract response. -/
def trA : TextractResponse := { blocks := blocksA }

/-- Scenario A Textract oracle. -/
def textractA : Nat → Except String TextractResponse := fun _ => Except.ok trA

/-- Scenario A structured result from Bedrock. -/
def acmeData : ExtractedInvoiceData :=
  { vendorName := some "Acme", totalAmount := some 100, currency := some "USD" }

/-- Scenario A Bedrock oracle. -/
def bedrockA : String → Nat → Except String ExtractedInvoiceData :=
  fun _ _ => Except.ok acmeData

/-- A valid upload request of 2048 bytes. -/
def reqW : UploadUrlRequest :=
  { fileName := "inv.pdf", fileSize := 2048, mimeType := "application/pdf" }

/-- A stored record owned by u1, used against a lookup by u2. -/
def itemW8 : DynamoInvoiceItem :=
  { PK := "USER#u1", SK := "INVOICE#inv1", GSI1PK := some "STATUS#UPLOADED",
    GSI1SK := some "2024-01-01T00:00:00.000Z",
    inv := { id := "inv1", userId := "u1", fileName := "a.pdf", fileSize := 100,
             mimeType := "application/pdf", s3Key := "uploads/u1/1-a.pdf",
             status := InvoiceStatus.uploaded,
             createdAt := "2024-01-01T00:00:00.000Z",
             updatedAt := "2024-01-01T00:00:00.000Z" } }

/-- A stored UPLOADED record updated by the witness of the update claim. -/
def itemW9 : DynamoInvoiceItem :=
  { PK := "USER#u1", SK := "INVOICE#inv1", GSI1PK := some "STATUS#UPLOADED",
    GSI1SK := some "t0",
    inv := { id := "inv1", userId := "u1", fileName := "a.pdf", fileSize := 100,
             mimeType := "application/pdf", s3Key := "uploads/u1/1-a.pdf",
             status := InvoiceStatus.uploaded, createdAt := "t0", updatedAt := "t1" } }

/-- The patch the PROCESSING transition sends. -/
def patchW9 : UpdatePatch :=
  { status := some InvoiceStatus.processing, processingStartedAt := some "t2" }

/-! ## Helper lemmas -/

/-- When every attempt fails, the retry loop surfaces an error. -/
theorem retryAux_error (fn : Nat → Except String α)
    (h : ∀ n, ∃ e, fn n = Except.error e) :
    ∀ (k base : Nat), ∃ e, retryAux fn base k = Except.error e := by
  intro k
  induction k with
  | zero => intro base; simpa [retryAux] using h base
  | succ n ih =>
    intro base
    obtain ⟨e, he⟩ := h base
    simpa [retryAux, he] using ih (base + 1)

/-- Left cancellation for string append. -/
theorem string_append_cancel_left {p a b : String} (h : p ++ a = p ++ b) : a = b := by
  have hd : p.data ++ a.data = p.data ++ b.data := congrArg String.data h
  have h2 := List.append_cancel_left hd
  cases a; cases b
  exact congrArg String.mk h2

/-- The filter-then-project of calculateTextractConfidence is the
filterMap of the confidence fields. -/
theorem calculateTextractConfidence_eq (blocks : List TextractBlock) :
    calculateTextractConfidence blocks = blocks.filterMap (fun b => b.confidence) := by
  induction blocks with
  | nil => rfl
  | cons b bs ih =>
    cases h : b.confidence with
    | none =>
      simpa [calculateTextractConfidence, List.filter_cons, List.filterMap_cons, h] using ih
    | some v =>
      simpa [calculateTextractConfidence, List.filter_cons, List.filterMap_cons, h] using ih

/-! ## Claim theorems -/

/-- C1: the claim reads the UPLOADED to PROCESSING transition as a
conditional atomic update that succeeds only while the status is still
UPLOADED.  The store update the repository has, updateInvoice, guards
only on existence of the item (attribute_exists on PK), so the transition
succeeds on a record that is already PROCESSING: a second concurrent
delivery would not observe a conditional failure.  (In the pipeline
itself the status write is additionally commented out, so no store
transition happens at all.) -/
theorem updateInvoice_no_status_guard :
    itC1.inv.status = InvoiceStatus.processing ∧
    (updateInvoice [itC1] "inv1" "u1"
        { status := some InvoiceStatus.processing, processingStartedAt := some "t2" }
        "t2").isOk = true := by
  decide

/-- C2 counterexample: with a Bedrock oracle failing on every attempt of
the retry budget (and Textract succeeding), the claim as stated is false
at this input: the run contains no FAILED status write, and it ends with
the COMPLETED data write whose extractedData is set (confidence only). -/
theorem bedrock_exhaustion_not_failed_cx :
    (processInvoiceFile textractOkC2 bedrockDownC2 "t2" "uploads/u3/55-c.pdf").all
        (fun e => !(isFailedStatusEvent e)) = true ∧
    (processInvoiceFile textractOkC2 bedrockDownC2 "t2" "uploads/u3/55-c.pdf").getLast? =
      some (PipelineEvent.dataUpdate "invoice-55"
        (buildDataUpdates { confidence := some { overall := 0, fields := [] } } "t2")) := by
  decide

/-- C2 amended: when the Bedrock call fails on every attempt of its retry
budget, callBedrockForDataExtraction swallows the error and returns the
empty data structure, and the processing attempt proceeds to the
COMPLETED write whose extracted data holds only the confidence summary;
the FAILED path is never taken for a Structuring failure. -/
theorem bedrock_exhaustion_completes
    (bedrock : String → Nat → Except String ExtractedInvoiceData)
    (hb : ∀ p n, ∃ e, bedrock p n = Except.error e)
    (textract : Nat → Except String TextractResponse) (tr : TextractResponse)
    (ht : textract 0 = Except.ok tr)
    (now rawKey invoiceId : String)
    (hid : getInvoiceIdFromS3Key (decodeS3Key rawKey) = some invoiceId) :
    (∀ p, callBedrockForDataExtraction (bedrock p) = ({} : ExtractedInvoiceData)) ∧
    processInvoiceFile textract bedrock now rawKey =
      [PipelineEvent.statusUpdate invoiceId
         (buildStatusUpdates InvoiceStatus.processing none now),
       PipelineEvent.textractInvoked,
       PipelineEvent.bedrockInvoked,
       PipelineEvent.dataUpdate invoiceId
         (buildDataUpdates
           { confidence := some { overall := calculateConfidence (calculateTextractConfidence tr.blocks),
                                  fields := [] } }
           now)] := by
  have hcall : ∀ p, callBedrockForDataExtraction (bedrock p) = ({} : ExtractedInvoiceData) := by
    intro p
    obtain ⟨e, he⟩ := retryAux_error (bedrock p) (hb p) 2 0
    simp [callBedrockForDataExtraction, retryWithBackoff, he]
  refine ⟨hcall, ?_⟩
  have htr : extractTextWithTextract textract = Except.ok tr := by
    simp [extractTextWithTextract, retryWithBackoff, retryAux, ht]
  simp [processInvoiceFile, hid, htr, processTextWithAI, hcall]

/-- C2 witness: the amended claim at a concrete all-failing Bedrock
oracle and a concrete key. -/
theorem bedrock_exhaustion_completes_witness :
    callBedrockForDataExtraction (bedrockDownC2 "p") = ({} : ExtractedInvoiceData) ∧
    processInvoiceFile textractOkC2 bedrockDownC2 "t2" "uploads/u4/66-d.pdf" =
      [PipelineEvent.statusUpdate "invoice-66"
         (buildStatusUpdates InvoiceStatus.processing none "t2"),
       PipelineEvent.textractInvoked,
       PipelineEvent.bedrockInvoked,
       PipelineEvent.dataUpdate "invoice-66"
         (buildDataUpdates
           { confidence := some { overall := calculateConfidence (calculateTextractConfidence trC2.blocks),
                                  fields := [] } }
           "t2")] := by
  have h := bedrock_exhaustion_completes bedrockDownC2
      (fun p n => ⟨"Bedrock unavailable", rfl⟩) textractOkC2 trC2 rfl
      "t2" "uploads/u4/66-d.pdf" "invoice-66" (by decide)
  exact ⟨h.1 "p", h.2⟩

/-- C3: the pipeline consults no stored state before re-driving: it takes
no table input, so a re-delivered notification for a record that is
already COMPLETED produces the full re-processing trace, ending in a
fresh COMPLETED data write, instead of being a no-op; and the store
update that write maps to replaces the extracted data of the COMPLETED
record with the freshly computed value. -/
theorem redelivery_reprocesses_completed :
    processInvoiceFile textractOkC3 bedrockOkC3 "t3" "uploads/u2/456-b.pdf" =
      [PipelineEvent.statusUpdate "invoice-456"
         (buildStatusUpdates InvoiceStatus.processing none "t3"),
       PipelineEvent.textractInvoked,
       PipelineEvent.bedrockInvoked,
       PipelineEvent.dataUpdate "invoice-456" (buildDataUpdates dNewC3 "t3")] ∧
    itC3.inv.status = InvoiceStatus.completed ∧
    itC3.inv.extractedData = some dOldC3 ∧
    (updateInvoice [itC3] "inv456" "u2" patchC3 "t3").map
        (List.map (fun it => it.inv.extractedData)) = Except.ok [some dNewC3] ∧
    ¬ dOldC3 = dNewC3 :=
  ⟨rfl, rfl, rfl, rfl, by decide⟩

/-- C4: a key that matches the uploads/user/timestamp-name pattern but
corresponds to no record is not dropped: getInvoiceIdFromS3Key fabricates
the placeholder id invoice-999 from the timestamp without any store
lookup, and the pipeline proceeds with it; only keys that fail the
pattern are dropped. -/
theorem unknown_key_fabricates_id :
    getInvoiceIdFromS3Key "uploads/u9/999-c.pdf" = some "invoice-999" ∧
    (processInvoiceFile textractOkC3 bedrockOkC3 "t4" "uploads/u9/999-c.pdf").head? =
      some (PipelineEvent.statusUpdate "invoice-999"
        (buildStatusUpdates InvoiceStatus.processing none "t4")) ∧
    processInvoiceFile textractOkC3 bedrockOkC3 "t4" "uploads/u9/scan.pdf" =
      [PipelineEvent.dropped "uploads/u9/scan.pdf"] := by
  decide

/-- C5: listByOwner scans the partition by SK descending, and SK is
INVOICE#id with a uuidv4 id, not a creation timestamp; on a snapshot
where the older record has the lexicographically larger id the first page
returns the older record first, so the order is not descending creation
time. -/
theorem list_order_not_creation_time :
    (getUserInvoices [itC5old, itC5new] "u5" {}).items.map (fun r => (r.id, r.createdAt)) =
      [("b0", "2024-01-01T00:00:00.000Z"), ("a0", "2024-01-02T00:00:00.000Z")] ∧
    strLt invC5old.createdAt invC5new.createdAt = true := by
  decide

/-- C6: the confidence summary the pipeline attaches is the arithmetic
mean of the per-block confidence values and 0 when no block carries one,
and on the Scenario A inputs the pipeline ends with a COMPLETED data
write whose overall confidence is 0.85; the write itself is the
terminal event of the trace (the source never persists it, see the
pipeline model). -/
theorem confidence_mean_scenarioA :
    (∀ (bedrock : String → Nat → Except String ExtractedInvoiceData) (tr : TextractResponse),
        (processTextWithAI bedrock tr).confidence =
          some { overall := calculateConfidence (tr.blocks.filterMap (fun b => b.confidence)),
                 fields := [] }) ∧
    (∀ bedrock : String → Nat → Except String ExtractedInvoiceData,
        (processTextWithAI bedrock { blocks := [] }).confidence =
          some { overall := 0, fields := [] }) ∧
    processInvoiceFile textractA bedrockA "t6" "uploads/u6/777-inv.pdf" =
      [PipelineEvent.statusUpdate "invoice-777"
         (buildStatusUpdates InvoiceStatus.processing none "t6"),
       PipelineEvent.textractInvoked,
       PipelineEvent.bedrockInvoked,
       PipelineEvent.dataUpdate "invoice-777"
         (buildDataUpdates
           { vendorName := some "Acme", totalAmount := some 100, currency := some "USD",
             confidence := some { overall := calculateConfidence (calculateTextractConfidence blocksA),
                                  fields := [] } }
           "t6")] ∧
    calculateConfidence (calculateTextractConfidence blocksA) = 85/100 := by
  refine ⟨?_, ?_, ?_, ?_⟩
  · intro bedrock tr
    simp [processTextWithAI, calculateTextractConfidence_eq]
  · intro bedrock
    simp [processTextWithAI, calculateTextractConfidence, calculateConfidence]
  · rfl
  · have hs : calculateTextractConfidence blocksA = [9/10, 4/5] := rfl
    rw [hs, calculateConfidence]
    norm_num

/-- C7: the upload-grant validation accepts fileSize 10485760 exactly,
rejects 10485761 and 0 with a ValidationError, and any accepted request
has 1 ≤ fileSize ≤ 10485760. -/
theorem upload_size_bounds :
    validateUploadRequest
        { fileName := "inv.pdf", fileSize := 10485760, mimeType := "application/pdf" } =
      Except.ok () ∧
    isApiValidationError (validateUploadRequest
        { fileName := "inv.pdf", fileSize := 10485761, mimeType := "application/pdf" }) = true ∧
    isApiValidationError (validateUploadRequest
        { fileName := "inv.pdf", fileSize := 0, mimeType := "application/pdf" }) = true ∧
    (∀ r : UploadUrlRequest, validateUploadRequest r = Except.ok () →
        1 ≤ r.fileSize ∧ r.fileSize ≤ 10485760) := by
  refine ⟨rfl, by decide, by decide, ?_⟩
  intro r h
  by_cases hs : uploadRequestSchemaOk r = true
  · rw [uploadRequestSchemaOk] at hs
    simp only [Bool.and_eq_true, decide_eq_true_eq] at hs
    refine ⟨hs.1.1.2, ?_⟩
    have := hs.1.2
    norm_num at this ⊢
    exact this
  · rw [validateUploadRequest] at h
    rw [Bool.not_eq_true] at hs
    simp [hs] at h

/-- C7 witness: the bound statement at the concrete accepted request of
2048 bytes. -/
theorem upload_size_bounds_witness : 1 ≤ reqW.fileSize ∧ reqW.fileSize ≤ 10485760 :=
  upload_size_bounds.2.2.2 reqW rfl

/-- C8: on a well-formed table, getInvoice returns a record only when the
id exists under the caller, with matching owner and id, and a lookup of
an existing id by any other owner yields NotFound. -/
theorem get_requires_ownership (table : List DynamoInvoiceItem)
    (hk : keysConsistent table) (hu : idsGloballyUnique table) :
    (∀ invoiceId userId r, getInvoice table invoiceId userId = some r →
        r.userId = userId ∧ r.id = invoiceId) ∧
    (∀ it ∈ table, ∀ userId, ¬ userId = it.inv.userId →
        getInvoiceById table it.inv.id userId =
          Except.error (ApiError.notFoundError "Invoice not found")) := by
  have main : ∀ invoiceId userId r, getInvoice table invoiceId userId = some r →
      ∃ it ∈ table, it.inv = r ∧ r.userId = userId ∧ r.id = invoiceId := by
    intro invoiceId userId r h
    obtain ⟨it, hfind, hmap⟩ := Option.map_eq_some'.mp h
    have hmem := List.mem_of_find?_eq_some hfind
    have hpred := List.find?_some hfind
    rw [Bool.and_eq_true] at hpred
    have hpk : it.PK = "USER#" ++ userId := by simpa using hpred.1
    have hsk : it.SK = "INVOICE#" ++ invoiceId := by simpa using hpred.2
    obtain ⟨hk1, hk2⟩ := hk it hmem
    have huser : it.inv.userId = userId := string_append_cancel_left (hk1 ▸ hpk)
    have hid : it.inv.id = invoiceId := string_append_cancel_left (hk2 ▸ hsk)
    exact ⟨it, hmem, hmap, by simp [← hmap, mapDynamoItemToInvoice, huser, hid]⟩
  constructor
  · intro invoiceId userId r h
    obtain ⟨it, _, _, h2⟩ := main invoiceId userId r h
    exact h2
  · intro it hmem userId hne
    rw [getInvoiceById]
    cases hg : getInvoice table it.inv.id userId with
    | none => rfl
    | some r =>
      exfalso
      obtain ⟨it2, hmem2, hinv2, huser2, hid2⟩ := main it.inv.id userId r hg
      have heq : it2 = it := hu it2 hmem2 it hmem (by rw [hinv2]; exact hid2)
      rw [heq] at hinv2
      apply hne
      rw [← hinv2] at huser2
      exact huser2.symm

/-- C8 witness: the record of u1 is NotFound for u2. -/
theorem get_requires_ownership_witness :
    getInvoiceById [itemW8] "inv1" "u2" =
      Except.error (ApiError.notFoundError "Invoice not found") := by
  have h := get_requires_ownership [itemW8]
      (by unfold keysConsistent; decide) (by unfold idsGloballyUnique; decide)
  exact h.2 itemW8 (List.mem_singleton.mpr rfl) "u2" (by decide)

/-- C9: every successful updateInvoice leaves the target item with
updatedAt equal to the supplied current timestamp for every patch, keeps
updatedAt non-decreasing when the clock is, and when the patch carries a
status the same write sets GSI1PK to STATUS#newStatus and the status
field to it. -/
theorem update_sets_updatedAt_and_status_index
    (table : List DynamoInvoiceItem) (invoiceId userId now : String)
    (p : UpdatePatch) (table' : List DynamoInvoiceItem)
    (h : updateInvoice table invoiceId userId p now = Except.ok table') :
    (∀ it' ∈ table', it'.PK = "USER#" ++ userId → it'.SK = "INVOICE#" ++ invoiceId →
        it'.inv.updatedAt = now ∧
        ∀ st, p.status = some st →
          it'.GSI1PK = some ("STATUS#" ++ st.str) ∧ it'.inv.status = st) ∧
    (∀ it ∈ table, it.PK = "USER#" ++ userId → it.SK = "INVOICE#" ++ invoiceId →
        strLe it.inv.updatedAt now = true →
        ∀ it' ∈ table', it'.PK = "USER#" ++ userId → it'.SK = "INVOICE#" ++ invoiceId →
          strLe it.inv.updatedAt it'.inv.updatedAt = true) := by
  rw [updateInvoice] at h
  by_cases hex : (table.any fun it =>
      it.PK == "USER#" ++ userId && it.SK == "INVOICE#" ++ invoiceId) = true
  · simp only [hex, if_pos] at h
    have htab : table' = table.map (fun it =>
        if it.PK == "USER#" ++ userId && it.SK == "INVOICE#" ++ invoiceId
        then updateItem it p now else it) := by
      exact (Except.ok.injEq _ _ |>.mp h).symm
    have hA : ∀ it' ∈ table', it'.PK = "USER#" ++ userId → it'.SK = "INVOICE#" ++ invoiceId →
        it'.inv.updatedAt = now ∧
        ∀ st, p.status = some st →
          it'.GSI1PK = some ("STATUS#" ++ st.str) ∧ it'.inv.status = st := by
      intro it' hmem hpk hsk
      rw [htab] at hmem
      obtain ⟨it, hit, hf⟩ := List.mem_map.mp hmem
      by_cases hc : (it.PK == "USER#" ++ userId && it.SK == "INVOICE#" ++ invoiceId) = true
      · rw [if_pos hc] at hf
        constructor
        · rw [← hf]; simp [updateItem, applyPatch]
        · intro st hst
          rw [← hf]
          simp [updateItem, applyPatch, hst]
      · rw [if_neg hc] at hf
        exfalso
        apply hc
        rw [hf]
        simp [hpk, hsk]
    refine ⟨hA, ?_⟩
    intro it hmem hpk hsk hle it' hmem' hpk' hsk'
    have h1 : it'.inv.updatedAt = now := (hA it' hmem' hpk' hsk').1
    rw [h1]
    exact hle
  · rw [if_neg hex] at h
    simp at h

/-- C9 witness: the PROCESSING patch on a concrete UPLOADED record. -/
theorem update_sets_updatedAt_and_status_index_witness :
    (updateItem itemW9 patchW9 "t2").inv.updatedAt = "t2" ∧
    (updateItem itemW9 patchW9 "t2").GSI1PK =
      some ("STATUS#" ++ InvoiceStatus.str InvoiceStatus.processing) ∧
    (updateItem itemW9 patchW9 "t2").inv.status = InvoiceStatus.processing ∧
    strLe itemW9.inv.updatedAt (updateItem itemW9 patchW9 "t2").inv.updatedAt = true := by
  have h := update_sets_updatedAt_and_status_index [itemW9] "inv1" "u1" "t2" patchW9
      [updateItem itemW9 patchW9 "t2"] rfl
  have hmem : updateItem itemW9 patchW9 "t2" ∈ [updateItem itemW9 patchW9 "t2"] :=
    List.mem_singleton.mpr rfl
  have hpk : (updateItem itemW9 patchW9 "t2").PK = "USER#" ++ "u1" := rfl
  have hsk : (updateItem itemW9 patchW9 "t2").SK = "INVOICE#" ++ "inv1" := rfl
  have hA := h.1 _ hmem hpk hsk
  have hB := h.2 itemW9 (List.mem_singleton.mpr rfl) rfl rfl (by decide) _ hmem hpk hsk
  exact ⟨hA.1, (hA.2 InvoiceStatus.processing rfl).1, (hA.2 InvoiceStatus.processing rfl).2, hB⟩

/-- C10: with the fixed valid name and size, the upload validation
accepts a mime type exactly when its lower-casing is in the six-element
allow-list, and in particular accepts image/jpg and Application/PDF. -/
theorem mime_validation_lowercase_allowlist :
    (∀ m : String, ¬ m = "" →
        ((validateUploadRequest { fileName := "inv.pdf", fileSize := 2048, mimeType := m } =
            Except.ok ()) ↔
          toLowerCase m ∈ allowedTypes)) ∧
    isValidFileType "image/jpg" = true ∧
    isValidFileType "Application/PDF" = true := by
  refine ⟨?_, by decide, by decide⟩
  intro m hm
  have hm' : (m == "") = false := by simpa using hm
  have hschema : uploadRequestSchemaOk
      { fileName := "inv.pdf", fileSize := 2048, mimeType := m } = true := by
    rw [uploadRequestSchemaOk]
    simp only [hm']
    rfl
  by_cases hv : isValidFileType m
  · simp [validateUploadRequest, hschema, isValidFileSize, hv]
    simpa [isValidFileType, List.elem_iff] using hv
  · have hv' : isValidFileType m = false := by simpa using hv
    simp [validateUploadRequest, hschema, hv']
    simpa [isValidFileType, List.elem_iff] using hv

/-- C10 witness: the mixed-case spelling Application/PDF is accepted. -/
theorem mime_validation_lowercase_allowlist_witness :
    validateUploadRequest
        { fileName := "inv.pdf", fileSize := 2048, mimeType := "Application/PDF" } =
      Except.ok () :=
  (mime_validation_lowercase_allowlist.1 "Application/PDF" (by decide)).mpr (by decide)

end InvoiceScanner
